import Mathlib

set_option maxRecDepth 8000

/- Shallow embedding of aiko-json (src/src/aiko-json.c, src/include/aiko-json.h):
   a jsmn-derived JSON tokenizer plus token cursor, and a jwrite-derived
   streaming serializer.  C machine integers are modelled as Nat/Int with the
   unsigned wraps written out explicitly (SIZE_T_MOD below); the fixed C arrays
   are modelled as Lean lists.  The token table is a growing list whose length
   equals the parser's toknext: the C code never reads a slot above toknext, so
   this is observationally the same as the fixed uninitialised array.  An
   out-of-bounds array access in the C source (a negative index) is modelled by
   the distinguished outcome ub; loops are run on fuel that strictly dominates
   the scan position, with the distinguished outcome spin for exhaustion. -/

/- Error codes of djson_error_e (aiko-json.h). -/
def JSON_ERROR_NOMEM : Int := -1
def JSON_ERROR_INVAL : Int := -2
def JSON_ERROR_PART : Int := -3
def JSON_ERROR_BUF_FULL : Int := -4
def JSON_ERROR_NOT_ARRAY : Int := -5
def JSON_ERROR_NOT_OBJECT : Int := -6
def JSON_ERROR_STACK_FULL : Int := -7
def JSON_ERROR_STACK_EMPTY : Int := -8
def JSON_ERROR_NEST_ERROR : Int := -9
def JSON_ERROR_OK : Int := 0

/- Capacity constants of aiko-json.h. -/
def JSON_TOKEN_SIZE : Nat := 4096
def JSON_JSON_SIZE : Nat := 65536
def JSON_STACK_DEPTH : Nat := 32

/- 2^64, the modulus of size_t arithmetic. -/
def SIZE_T_MOD : Nat := 18446744073709551616

/- The C null terminator. -/
def charNUL : Char := Char.ofNat 0

inductive djson_type_e where
  | JSON_PRIMITIVE
  | JSON_OBJECT
  | JSON_ARRAY
  | JSON_STRING
deriving DecidableEq, Inhabited

/- djson_type_e as the C int value (enum values 0..3). -/
def typeInt : djson_type_e → Int
  | .JSON_PRIMITIVE => 0
  | .JSON_OBJECT => 1
  | .JSON_ARRAY => 2
  | .JSON_STRING => 3

structure token_s where
  type : djson_type_e
  start : Int
  end_ : Int
  size : Int
  parent : Int
deriving DecidableEq, Inhabited

structure jsmne_parser_s where
  pos : Nat
  toknext : Nat
  toksuper : Int
deriving DecidableEq, Inhabited

/- Outcome of running a fragment of tokenizer code: the returned int together
   with the mutated parser and token table, or the undefined-behaviour marker
   ub (an out-of-bounds token-table access in the C), or spin (fuel ran out;
   unreachable for the fuel values used by the entry points). -/
inductive COut where
  | ret (r : Int) (p : jsmne_parser_s) (tokens : List token_s)
  | ub
  | spin
deriving DecidableEq

/- tokens[i] for a C int index: out of bounds yields none (callers map it to ub). -/
def tokGet (tokens : List token_s) (i : Int) : Option token_s :=
  if 0 ≤ i then tokens.get? i.toNat else none

def tokSet (tokens : List token_s) (i : Int) (t : token_s) : List token_s :=
  if 0 ≤ i then tokens.set i.toNat t else tokens

/- jsmne_alloc_token: allocate the next slot; the C initialises start = end = -1,
   size = 0, parent = -1 and leaves type alone (it is always overwritten before
   being read, so the placeholder type below is never observable). -/
def jsmne_alloc_token (p : jsmne_parser_s) (tokens : List token_s) (num_tokens : Nat) :
    Option (jsmne_parser_s × List token_s × Nat) :=
  if num_tokens ≤ p.toknext then none
  else some ({ p with toknext := p.toknext + 1 },
    tokens ++ [{ type := .JSON_PRIMITIVE, start := -1, end_ := -1, size := 0, parent := -1 }],
    p.toknext)

/- jsmne_fill_token. -/
def jsmne_fill_token (t : token_s) (type : djson_type_e) (start end_ : Int) : token_s :=
  { t with type := type, start := start, end_ := end_, size := 0 }

inductive PrimScan where
  | found (pos : Nat)
  | inval
  | spin
deriving DecidableEq

/- The scan loop of jsmne_parse_primitive: advance until a delimiter (which the
   C reaches through the found label, also on end of input), rejecting control
   and non-ASCII bytes. -/
def jsmne_primitive_loop (js : List Char) (len : Nat) (pos : Nat) (fuel : Nat) : PrimScan :=
  match fuel with
  | 0 => .spin
  | fuel + 1 =>
    if pos < len ∧ js.getD pos charNUL ≠ charNUL then
      if js.getD pos charNUL = '\t' ∨ js.getD pos charNUL = '\r' ∨ js.getD pos charNUL = '\n' ∨
          js.getD pos charNUL = ' ' ∨ js.getD pos charNUL = ',' ∨ js.getD pos charNUL = ']' ∨
          js.getD pos charNUL = '\x7d' then
        .found pos
      else if (js.getD pos charNUL).toNat < 32 ∨ 127 ≤ (js.getD pos charNUL).toNat then .inval
      else jsmne_primitive_loop js len (pos + 1) fuel
    else .found pos

/- jsmne_parse_primitive. -/
def jsmne_parse_primitive (p : jsmne_parser_s) (js : List Char) (len : Nat)
    (tokens : List token_s) (num_tokens : Nat) : COut :=
  match jsmne_primitive_loop js len p.pos (len + 1 - p.pos) with
  | .spin => .spin
  | .inval => .ret JSON_ERROR_INVAL { p with pos := p.pos } tokens
  | .found fpos =>
    match jsmne_alloc_token { p with pos := fpos } tokens num_tokens with
    | none => .ret JSON_ERROR_NOMEM { p with pos := p.pos } tokens
    | some (p1, tokens1, idx) =>
      let t1 := { jsmne_fill_token (tokens1.getD idx default) .JSON_PRIMITIVE (p.pos : Int) (fpos : Int)
                    with parent := p.toksuper }
      .ret 0 { p1 with pos := fpos - 1 } (tokens1.set idx t1)

/- The \uXXXX hex loop inside jsmne_parse_string: consume up to four hex digits
   (stopping early at end of input); a non-hex digit is the invalid-character
   failure, reported as none. -/
def jsmne_hex_loop (js : List Char) (len : Nat) (pos : Nat) (count : Nat) : Option Nat :=
  match count with
  | 0 => some pos
  | count + 1 =>
    if pos < len ∧ js.getD pos charNUL ≠ charNUL then
      if (48 ≤ (js.getD pos charNUL).toNat ∧ (js.getD pos charNUL).toNat ≤ 57) ∨
          (65 ≤ (js.getD pos charNUL).toNat ∧ (js.getD pos charNUL).toNat ≤ 70) ∨
          (97 ≤ (js.getD pos charNUL).toNat ∧ (js.getD pos charNUL).toNat ≤ 102) then
        jsmne_hex_loop js len (pos + 1) count
      else none
    else some pos

/- The scan loop of jsmne_parse_string, from the character after the opening
   quote; start is the position of the opening quote (restored on failure). -/
def jsmne_string_loop (js : List Char) (len num_tokens : Nat) (p : jsmne_parser_s)
    (tokens : List token_s) (start : Nat) (pos fuel : Nat) : COut :=
  match fuel with
  | 0 => .spin
  | fuel + 1 =>
    if pos < len ∧ js.getD pos charNUL ≠ charNUL then
      if js.getD pos charNUL = '"' then
        match jsmne_alloc_token { p with pos := pos } tokens num_tokens with
        | none => .ret JSON_ERROR_NOMEM { p with pos := start } tokens
        | some (p1, tokens1, idx) =>
          let t1 := { jsmne_fill_token (tokens1.getD idx default) .JSON_STRING ((start : Int) + 1) (pos : Int)
                        with parent := p.toksuper }
          .ret 0 p1 (tokens1.set idx t1)
      else if js.getD pos charNUL = '\\' ∧ pos + 1 < len then
        if js.getD (pos + 1) charNUL = '"' ∨ js.getD (pos + 1) charNUL = '/' ∨
            js.getD (pos + 1) charNUL = '\\' ∨ js.getD (pos + 1) charNUL = 'b' ∨
            js.getD (pos + 1) charNUL = 'f' ∨ js.getD (pos + 1) charNUL = 'r' ∨
            js.getD (pos + 1) charNUL = 'n' ∨ js.getD (pos + 1) charNUL = 't' then
          jsmne_string_loop js len num_tokens p tokens start (pos + 2) fuel
        else if js.getD (pos + 1) charNUL = 'u' then
          match jsmne_hex_loop js len (pos + 2) 4 with
          | none => .ret JSON_ERROR_INVAL { p with pos := start } tokens
          | some pos2 => jsmne_string_loop js len num_tokens p tokens start pos2 fuel
        else .ret JSON_ERROR_INVAL { p with pos := start } tokens
      else jsmne_string_loop js len num_tokens p tokens start (pos + 1) fuel
    else .ret JSON_ERROR_PART { p with pos := start } tokens

/- jsmne_parse_string. -/
def jsmne_parse_string (p : jsmne_parser_s) (js : List Char) (len : Nat)
    (tokens : List token_s) (num_tokens : Nat) : COut :=
  jsmne_string_loop js len num_tokens p tokens p.pos (p.pos + 1) (len + 1)

inductive CloseOut where
  | done (tokens : List token_s) (super : Option Int)
  | inval
  | ub
  | spin
deriving DecidableEq

/- The closing-bracket walk of jsmne_parse (case '}' / ']'): from token i follow
   parent links until a still-open token is found (kind checked, end set,
   superior becomes its parent) or a parentless token ends the walk with no
   effect.  A C table whose parent links do not decrease could loop forever;
   fuel covers that (the parser only ever produces decreasing parents). -/
def jsmne_close_walk (tokens : List token_s) (i : Int) (type : djson_type_e)
    (pos : Nat) (fuel : Nat) : CloseOut :=
  match fuel with
  | 0 => .spin
  | fuel + 1 =>
    match tokGet tokens i with
    | none => .ub
    | some t =>
      if t.start ≠ -1 ∧ t.end_ = -1 then
        if t.type ≠ type then .inval
        else .done (tokSet tokens i { t with end_ := (pos : Int) + 1 }) (some t.parent)
      else if t.parent = -1 then .done tokens none
      else jsmne_close_walk tokens t.parent type pos fuel

/- The backward scan of the ',' case: find the highest-indexed still-open
   object or array at or below index i. -/
def jsmne_comma_scan (tokens : List token_s) (i : Nat) : Option Nat :=
  if ((tokens.getD i default).type = .JSON_ARRAY ∨ (tokens.getD i default).type = .JSON_OBJECT) ∧
      (tokens.getD i default).start ≠ -1 ∧ (tokens.getD i default).end_ = -1 then
    some i
  else
    match i with
    | 0 => none
    | j + 1 => jsmne_comma_scan tokens j

/- The main scan loop of jsmne_parse.  k is the local counter the C function
   returns on success (incremented at every token-producing production; the
   local variable count of the C source is dead and not modelled).  tokens is
   always non-NULL in this library (startParsingJSON passes the handle's
   table), so the tokens == NULL branches are not modelled. -/
def jsmne_parse_loop (js : List Char) (len num_tokens : Nat) (p : jsmne_parser_s)
    (tokens : List token_s) (k : Nat) (fuel : Nat) : COut :=
  match fuel with
  | 0 => .spin
  | fuel + 1 =>
    if p.pos < len ∧ js.getD p.pos charNUL ≠ charNUL then
      if js.getD p.pos charNUL = '\x7b' ∨ js.getD p.pos charNUL = '[' then
        match jsmne_alloc_token p tokens num_tokens with
        | none => .ret JSON_ERROR_NOMEM p tokens
        | some (p1, tokens1, idx) =>
          if p.toksuper ≠ -1 then
            match tokGet tokens1 p.toksuper with
            | none => .ub
            | some sup =>
              let tokens2 := tokSet tokens1 p.toksuper { sup with size := sup.size + 1 }
              let t1 := { tokens2.getD idx default with
                          parent := p.toksuper,
                          type := if js.getD p.pos charNUL = '\x7b' then djson_type_e.JSON_OBJECT else .JSON_ARRAY,
                          start := (p.pos : Int) }
              jsmne_parse_loop js len num_tokens
                { p1 with pos := p.pos + 1, toksuper := (p1.toknext : Int) - 1 }
                (tokens2.set idx t1) (k + 1) fuel
          else
            let t1 := { tokens1.getD idx default with
                        type := if js.getD p.pos charNUL = '\x7b' then djson_type_e.JSON_OBJECT else .JSON_ARRAY,
                        start := (p.pos : Int) }
            jsmne_parse_loop js len num_tokens
              { p1 with pos := p.pos + 1, toksuper := (p1.toknext : Int) - 1 }
              (tokens1.set idx t1) (k + 1) fuel
      else if js.getD p.pos charNUL = '\x7d' ∨ js.getD p.pos charNUL = ']' then
        if p.toknext < 1 then .ret JSON_ERROR_INVAL p tokens
        else
          match jsmne_close_walk tokens ((p.toknext : Int) - 1)
              (if js.getD p.pos charNUL = '\x7d' then djson_type_e.JSON_OBJECT else .JSON_ARRAY)
              p.pos p.toknext with
          | .spin => .spin
          | .ub => .ub
          | .inval => .ret JSON_ERROR_INVAL p tokens
          | .done tokens1 super =>
            jsmne_parse_loop js len num_tokens
              { p with pos := p.pos + 1, toksuper := super.getD p.toksuper } tokens1 k fuel
      else if js.getD p.pos charNUL = '"' then
        match jsmne_parse_string p js len tokens num_tokens with
        | .spin => .spin
        | .ub => .ub
        | .ret r p1 tokens1 =>
          if r < 0 then .ret r p1 tokens1
          else if p1.toksuper ≠ -1 then
            match tokGet tokens1 p1.toksuper with
            | none => .ub
            | some sup =>
              jsmne_parse_loop js len num_tokens { p1 with pos := p1.pos + 1 }
                (tokSet tokens1 p1.toksuper { sup with size := sup.size + 1 }) (k + 1) fuel
          else jsmne_parse_loop js len num_tokens { p1 with pos := p1.pos + 1 } tokens1 (k + 1) fuel
      else if js.getD p.pos charNUL = '\t' ∨ js.getD p.pos charNUL = '\r' ∨
          js.getD p.pos charNUL = '\n' ∨ js.getD p.pos charNUL = ' ' then
        jsmne_parse_loop js len num_tokens { p with pos := p.pos + 1 } tokens k fuel
      else if js.getD p.pos charNUL = ':' then
        jsmne_parse_loop js len num_tokens
          { p with pos := p.pos + 1, toksuper := (p.toknext : Int) - 1 } tokens k fuel
      else if js.getD p.pos charNUL = ',' then
        match tokGet tokens p.toksuper with
        | none => .ub
        | some t =>
          if t.type ≠ .JSON_ARRAY ∧ t.type ≠ .JSON_OBJECT then
            let super1 : Int :=
              match jsmne_comma_scan tokens (p.toknext - 1) with
              | some i => (i : Int)
              | none => t.parent
            jsmne_parse_loop js len num_tokens
              { p with pos := p.pos + 1, toksuper := super1 } tokens k fuel
          else jsmne_parse_loop js len num_tokens { p with pos := p.pos + 1 } tokens k fuel
      else if js.getD p.pos charNUL = '-' ∨ js.getD p.pos charNUL = '0' ∨
          js.getD p.pos charNUL = '1' ∨ js.getD p.pos charNUL = '2' ∨
          js.getD p.pos charNUL = '3' ∨ js.getD p.pos charNUL = '4' ∨
          js.getD p.pos charNUL = '5' ∨ js.getD p.pos charNUL = '6' ∨
          js.getD p.pos charNUL = '7' ∨ js.getD p.pos charNUL = '8' ∨
          js.getD p.pos charNUL = '9' ∨ js.getD p.pos charNUL = 't' ∨
          js.getD p.pos charNUL = 'f' ∨ js.getD p.pos charNUL = 'n' then
        match tokGet tokens p.toksuper with
        | none => .ub
        | some t =>
          if t.type = .JSON_OBJECT ∨ (t.type = .JSON_STRING ∧ t.size ≠ 0) then
            .ret JSON_ERROR_INVAL p tokens
          else
            match jsmne_parse_primitive p js len tokens num_tokens with
            | .spin => .spin
            | .ub => .ub
            | .ret r p1 tokens1 =>
              if r < 0 then .ret r p1 tokens1
              else if p1.toksuper ≠ -1 then
                match tokGet tokens1 p1.toksuper with
                | none => .ub
                | some sup =>
                  jsmne_parse_loop js len num_tokens { p1 with pos := p1.pos + 1 }
                    (tokSet tokens1 p1.toksuper { sup with size := sup.size + 1 }) (k + 1) fuel
              else jsmne_parse_loop js len num_tokens { p1 with pos := p1.pos + 1 } tokens1 (k + 1) fuel
      else .ret JSON_ERROR_INVAL p tokens
    else
      if tokens.any (fun t => decide (t.start ≠ -1) && decide (t.end_ = -1)) then
        .ret JSON_ERROR_PART p tokens
      else .ret (k : Int) p tokens

/- jsmne_init. -/
def jsmne_init : jsmne_parser_s := { pos := 0, toknext := 0, toksuper := -1 }

/- jsmne_parse.  The scan position strictly increases at every iteration, so
   fuel len + 1 is never exhausted. -/
def jsmne_parse (p : jsmne_parser_s) (js : List Char) (len : Nat)
    (tokens : List token_s) (num_tokens : Nat) : COut :=
  jsmne_parse_loop js len num_tokens p tokens 0 (len + 1)

/- jsmne_parse exactly as startParsingJSON invokes it: fresh parser, empty
   table, len = strlen(js), capacity JSON_TOKEN_SIZE. -/
def jsmne_parseFull (js : List Char) : COut :=
  jsmne_parse jsmne_init js js.length [] JSON_TOKEN_SIZE

structure parser_s where
  json : List Char
  counter : Nat
  length : Nat
  tokens : List token_s
deriving DecidableEq, Inhabited

inductive StartOut where
  | ret (r : Int) (parser : parser_s)
  | ub
  | spin
deriving DecidableEq

/- The int len returned by jsmne_parse stored into the size_t length field:
   a negative error code wraps modulo 2^64. -/
def sizeTofInt (i : Int) : Nat := (i % (SIZE_T_MOD : Int)).toNat

/- length - 1 computed in size_t: wraps to SIZE_T_MOD - 1 when length = 0. -/
def sizeTpred (n : Nat) : Nat := (n + (SIZE_T_MOD - 1)) % SIZE_T_MOD

/- startParsingJSON: runs the tokenizer; only JSON_ERROR_NOMEM is propagated,
   every other outcome (including the negative INVAL/PART codes, which land in
   the size_t length field) falls through to the JSON_ERROR_OK return. -/
def startParsingJSON (parser : parser_s) (js : List Char) : StartOut :=
  match jsmne_parseFull js with
  | .ub => .ub
  | .spin => .spin
  | .ret len _ toks =>
    if len = JSON_ERROR_NOMEM then .ret JSON_ERROR_NOMEM { parser with tokens := toks }
    else .ret JSON_ERROR_OK
      { parser with counter := 0, length := sizeTofInt len, json := js, tokens := toks }

/- Cursor queries (counter >= 0 is trivially true on size_t and not repeated). -/
def hasBeforeToken (p : parser_s) : Bool := decide (0 < p.counter)

def hasCurrentToken (p : parser_s) : Bool := decide (p.counter ≤ sizeTpred p.length)

def hasNextToken (p : parser_s) : Bool := decide (p.counter < sizeTpred p.length)

def beforeToken (p : parser_s) : parser_s := { p with counter := sizeTpred p.counter }

def nextToken (p : parser_s) : parser_s := { p with counter := (p.counter + 1) % SIZE_T_MOD }

def beforeTokenType (p : parser_s) : Int :=
  if 0 < p.counter then typeInt (p.tokens.getD (p.counter - 1) default).type else -1

def currentTokenType (p : parser_s) : Int :=
  if p.counter ≤ sizeTpred p.length then typeInt (p.tokens.getD p.counter default).type else -1

def nextTokenType (p : parser_s) : Int :=
  if p.counter < sizeTpred p.length then typeInt (p.tokens.getD (p.counter + 1) default).type else -1

structure nodestack_t where
  nodeType : djson_type_e
  elementNo : Int
deriving DecidableEq, Inhabited

structure unparser_s where
  buffer : List Char
  tmpbuf : List Char
  error : Int
  callNo : Int
  nodeStack : List nodestack_t
  stackpos : Nat
  isPretty : Bool
deriving DecidableEq, Inhabited

/- jwPutch: append one byte unless the output buffer is full (then latch
   JSON_ERROR_BUF_FULL and drop the byte). -/
def jwPutch (u : unparser_s) (c : Char) : unparser_s :=
  if JSON_JSON_SIZE ≤ u.buffer.length then { u with error := JSON_ERROR_BUF_FULL }
  else { u with buffer := u.buffer ++ [c] }

def jwPutraw (u : unparser_s) (str : List Char) : unparser_s := str.foldl jwPutch u

def jwPutstr (u : unparser_s) (str : List Char) : unparser_s :=
  jwPutch (jwPutraw (jwPutch u '"') str) '"'

/- jwPretty: newline plus stackpos + 1 indent units of four spaces. -/
def jwPretty (u : unparser_s) : unparser_s :=
  if u.isPretty then
    (List.range (u.stackpos + 1)).foldl (fun v _ => jwPutraw v [' ', ' ', ' ', ' ']) (jwPutch u '\n')
  else u

def jwPush (u : unparser_s) (nodeType : djson_type_e) : unparser_s :=
  if JSON_STACK_DEPTH ≤ u.stackpos + 1 then { u with error := JSON_ERROR_STACK_FULL }
  else { u with
          stackpos := u.stackpos + 1,
          nodeStack := u.nodeStack.set (u.stackpos + 1) { nodeType := nodeType, elementNo := 0 } }

/- jwPop: returns the top frame's kind; at stackpos 0 latches STACK_EMPTY and
   does not decrement. -/
def jwPop (u : unparser_s) : djson_type_e × unparser_s :=
  if u.stackpos = 0 then
    ((u.nodeStack.getD u.stackpos default).nodeType, { u with error := JSON_ERROR_STACK_EMPTY })
  else
    ((u.nodeStack.getD u.stackpos default).nodeType, { u with stackpos := u.stackpos - 1 })

/- _jwObj: note that after latching NOT_OBJECT the C still falls through and
   emits the pretty whitespace, the quoted key and the colon. -/
def _jwObj (u0 : unparser_s) (key : List Char) : unparser_s × Int :=
  if u0.error = JSON_ERROR_OK then
    let u1 := { u0 with callNo := u0.callNo + 1 }
    let top := u1.nodeStack.getD u1.stackpos default
    let u2 :=
      if top.nodeType ≠ .JSON_OBJECT then { u1 with error := JSON_ERROR_NOT_OBJECT }
      else
        let u' := { u1 with nodeStack := u1.nodeStack.set u1.stackpos { top with elementNo := top.elementNo + 1 } }
        if 0 < top.elementNo then jwPutch u' ',' else u'
    let u3 := jwPutch (jwPutstr (jwPretty u2) key) ':'
    let u4 := if u3.isPretty then jwPutch u3 ' ' else u3
    (u4, u4.error)
  else (u0, u0.error)

/- _jwArr: after latching NOT_ARRAY the C still falls through to jwPretty
   (a no-op in compact mode). -/
def _jwArr (u0 : unparser_s) : unparser_s × Int :=
  if u0.error = JSON_ERROR_OK then
    let u1 := { u0 with callNo := u0.callNo + 1 }
    let top := u1.nodeStack.getD u1.stackpos default
    let u2 :=
      if top.nodeType ≠ .JSON_ARRAY then { u1 with error := JSON_ERROR_NOT_ARRAY }
      else
        let u' := { u1 with nodeStack := u1.nodeStack.set u1.stackpos { top with elementNo := top.elementNo + 1 } }
        if 0 < top.elementNo then jwPutch u' ',' else u'
    let u3 := jwPretty u2
    (u3, u3.error)
  else (u0, u0.error)

inductive djson_format_e where
  | JSON_COMPACT
  | JSON_PRETTY
deriving DecidableEq

/- startUnparsingJSON: resets the handle and writes the opening character.
   The C literally tests rootType == JSON_STRING to pick between the opening
   brace and the opening bracket. -/
def startUnparsingJSON (rootType : djson_type_e) (isPretty : djson_format_e) : unparser_s :=
  let u : unparser_s :=
    { buffer := [], tmpbuf := [], error := JSON_ERROR_OK, callNo := 1,
      nodeStack := (List.replicate JSON_STACK_DEPTH default).set 0 { nodeType := rootType, elementNo := 0 },
      stackpos := 0, isPretty := decide (isPretty = djson_format_e.JSON_PRETTY) }
  jwPutch u (if rootType = .JSON_STRING then '\x7b' else '[')

/- endJSON. -/
def endJSON (u : unparser_s) : unparser_s × Int :=
  if u.error = JSON_ERROR_OK then
    if u.stackpos = 0 then
      let u1 := if u.isPretty then jwPutch u '\n' else u
      let u2 := jwPutch u1 (if (u.nodeStack.getD 0 default).nodeType = .JSON_OBJECT then '\x7d' else ']')
      (u2, u2.error)
    else ({ u with error := JSON_ERROR_NEST_ERROR }, JSON_ERROR_NEST_ERROR)
  else (u, u.error)

/- endObject. -/
def endObject (u : unparser_s) : unparser_s × Int :=
  if u.error = JSON_ERROR_OK then
    let lastElemNo := (u.nodeStack.getD u.stackpos default).elementNo
    let node := (jwPop u).1
    let u1 := (jwPop u).2
    let u2 := if 0 < lastElemNo then jwPretty u1 else u1
    let u3 := jwPutch u2 (if node = .JSON_OBJECT then '\x7d' else ']')
    (u3, u3.error)
  else (u, u.error)

/- endArray: textually identical to endObject in the C source. -/
def endArray (u : unparser_s) : unparser_s × Int :=
  if u.error = JSON_ERROR_OK then
    let lastElemNo := (u.nodeStack.getD u.stackpos default).elementNo
    let node := (jwPop u).1
    let u1 := (jwPop u).2
    let u2 := if 0 < lastElemNo then jwPretty u1 else u1
    let u3 := jwPutch u2 (if node = .JSON_OBJECT then '\x7d' else ']')
    (u3, u3.error)
  else (u, u.error)

/- getError returns the call counter field, not the latched error code. -/
def getError (u : unparser_s) : Int := u.callNo

/- The digit-emitting do-while of modp_itoa10, least significant digit first.
   fuel = uvalue + 1 always dominates the digit count. -/
def itoaLoop (fuel : Nat) (u : Nat) : List Char :=
  match fuel with
  | 0 => []
  | fuel + 1 => Char.ofNat (48 + u % 10) :: (if u / 10 = 0 then [] else itoaLoop fuel (u / 10))

/- modp_itoa10: reversed digits, then the sign, then strreverse.  (The C takes
   an int32; the INT32_MIN overflow of -value is outside every claim.) -/
def modp_itoa10 (value : Int) : List Char :=
  (if value < 0 then itoaLoop (value.natAbs + 1) value.natAbs ++ ['-']
   else itoaLoop (value.natAbs + 1) value.natAbs).reverse

def addRawTextToObject (u : unparser_s) (key rawtext : List Char) : unparser_s :=
  if (_jwObj u key).2 = JSON_ERROR_OK then jwPutraw (_jwObj u key).1 rawtext else (_jwObj u key).1

def addStringToObject (u : unparser_s) (key value : List Char) : unparser_s :=
  if (_jwObj u key).2 = JSON_ERROR_OK then jwPutstr (_jwObj u key).1 value else (_jwObj u key).1

def addIntegerToObject (u : unparser_s) (key : List Char) (value : Int) : unparser_s :=
  addRawTextToObject { u with tmpbuf := modp_itoa10 value } key (modp_itoa10 value)

def addRawTextToArray (u : unparser_s) (rawtext : List Char) : unparser_s :=
  if (_jwArr u).2 = JSON_ERROR_OK then jwPutraw (_jwArr u).1 rawtext else (_jwArr u).1

def addStringToArray (u : unparser_s) (value : List Char) : unparser_s :=
  if (_jwArr u).2 = JSON_ERROR_OK then jwPutstr (_jwArr u).1 value else (_jwArr u).1

/- Still-open token: start assigned, end not yet assigned. -/
def TokOpen (t : token_s) : Prop := t.start ≠ -1 ∧ t.end_ = -1

instance (t : token_s) : Decidable (TokOpen t) := by
  unfold TokOpen
  infer_instance

/- The nearest still-open container reachable from token i through parent
   links: some j when the walk first meets an open token j, none when it runs
   off a parentless closed token.  This is the search relation the closing
   walk of jsmne_parse implements. -/
inductive ChainFirstOpen (tokens : List token_s) : Int → Option Int → Prop where
  | found (i : Int) (t : token_s) (hget : tokGet tokens i = some t) (hopen : TokOpen t) :
      ChainFirstOpen tokens i (some i)
  | stop (i : Int) (t : token_s) (hget : tokGet tokens i = some t) (hnot : ¬ TokOpen t)
      (hpar : t.parent = -1) : ChainFirstOpen tokens i none
  | step (i : Int) (t : token_s) (r : Option Int) (hget : tokGet tokens i = some t)
      (hnot : ¬ TokOpen t) (hpar : t.parent ≠ -1) (hrec : ChainFirstOpen tokens t.parent r) :
      ChainFirstOpen tokens i r

/- Parent links point strictly below the token's own index (true of every
   table the tokenizer builds; rules out parent cycles). -/
def ParentsBack (tokens : List token_s) : Prop :=
  ∀ j : Nat, j < tokens.length → (tokens.getD j default).parent < (j : Int)

instance (tokens : List token_s) : Decidable (ParentsBack tokens) := by
  unfold ParentsBack
  infer_instance

/- Concrete handle states used by the closed theorems below. -/
def p_empty : parser_s := { json := [], counter := 0, length := 0, tokens := [] }

def u_obj_compact : unparser_s := startUnparsingJSON .JSON_OBJECT .JSON_COMPACT

def u_obj_pretty : unparser_s := startUnparsingJSON .JSON_OBJECT .JSON_PRETTY

def u_arr_compact : unparser_s := startUnparsingJSON .JSON_ARRAY .JSON_COMPACT

/- The input of concrete scenario 1 of the spec. -/
def js_scenario1 : List Char :=
  ['\x7b', '"', 'a', '"', ':', '1', ',', '"', 'b', '"', ':',
   '[', 't', 'r', 'u', 'e', ',', 'n', 'u', 'l', 'l', ']', '\x7d']

/- Helper lemmas (shared; none of these settles a claim by itself). -/

theorem sizeTpred_eq (n : Nat) (h1 : 1 ≤ n) (h2 : n < SIZE_T_MOD) : sizeTpred n = n - 1 := by
  unfold sizeTpred SIZE_T_MOD at *
  omega

theorem jwPutch_callNo (u : unparser_s) (c : Char) : (jwPutch u c).callNo = u.callNo := by
  unfold jwPutch
  split <;> rfl

theorem foldl_putch_callNo (l : List Char) : ∀ u : unparser_s, (l.foldl jwPutch u).callNo = u.callNo := by
  induction l with
  | nil => intro u; rfl
  | cons c cs ih => intro u; rw [List.foldl_cons, ih, jwPutch_callNo]

theorem jwPutraw_callNo (u : unparser_s) (str : List Char) : (jwPutraw u str).callNo = u.callNo :=
  foldl_putch_callNo str u

theorem jwPutstr_callNo (u : unparser_s) (str : List Char) : (jwPutstr u str).callNo = u.callNo := by
  unfold jwPutstr
  rw [jwPutch_callNo, jwPutraw_callNo, jwPutch_callNo]

theorem foldl_indent_callNo (l : List Nat) :
    ∀ u : unparser_s, (l.foldl (fun v _ => jwPutraw v [' ', ' ', ' ', ' ']) u).callNo = u.callNo := by
  induction l with
  | nil => intro u; rfl
  | cons c cs ih => intro u; rw [List.foldl_cons, ih, jwPutraw_callNo]

theorem jwPretty_callNo (u : unparser_s) : (jwPretty u).callNo = u.callNo := by
  unfold jwPretty
  split
  · rw [foldl_indent_callNo, jwPutch_callNo]
  · rfl

theorem jwPretty_compact (u : unparser_s) (h : u.isPretty = false) : jwPretty u = u := by
  unfold jwPretty
  rw [h]
  simp

theorem jwPop_fst (u : unparser_s) : (jwPop u).1 = (u.nodeStack.getD u.stackpos default).nodeType := by
  unfold jwPop
  split <;> rfl

theorem jwPop_snd_buffer (u : unparser_s) : ((jwPop u).2).buffer = u.buffer := by
  unfold jwPop
  split <;> rfl

theorem jwPop_snd_isPretty (u : unparser_s) : ((jwPop u).2).isPretty = u.isPretty := by
  unfold jwPop
  split <;> rfl

theorem jwPop_snd_callNo (u : unparser_s) : ((jwPop u).2).callNo = u.callNo := by
  unfold jwPop
  split <;> rfl

/-- Claim C1 (code_bug evidence): the episode start(root = Object, compact);
add_integer("x", 5); add_string("y", "z"); end fills the output buffer with
the bracket-opened text recorded here, not with the brace-opened text the
spec's concrete scenario 2 demands: startUnparsingJSON tests
rootType == JSON_STRING when choosing the opening character, so an Object
root opens with a bracket while endJSON closes it with a brace, and the
episode still reports JSON_ERROR_OK. -/
theorem serializer_object_root_emits_bracket :
    (endJSON (addStringToObject (addIntegerToObject u_obj_compact ['x'] 5) ['y'] ['z'])).1.buffer =
      ['[', '"', 'x', '"', ':', '5', ',', '"', 'y', '"', ':', '"', 'z', '"', '\x7d'] ∧
    (endJSON (addStringToObject (addIntegerToObject u_obj_compact ['x'] 5) ['y'] ['z'])).1.buffer ≠
      ['\x7b', '"', 'x', '"', ':', '5', ',', '"', 'y', '"', ':', '"', 'z', '"', '\x7d'] ∧
    (endJSON (addStringToObject (addIntegerToObject u_obj_compact ['x'] 5) ['y'] ['z'])).2 =
      JSON_ERROR_OK := by
  decide

/-- Claim C4, counterexample: the input of concrete scenario 1 produces 7
tokens, not the 6 the claim states. -/
theorem scenario1_token_count_is_seven :
    (match jsmne_parseFull js_scenario1 with
     | COut.ret _ p _ => p.toknext
     | _ => 0) = 7 ∧ (7 : Nat) ≠ 6 := by
  decide

/-- Claim C4, amended: parsing the input of concrete scenario 1 succeeds with
return value 7 and produces exactly 7 tokens, in scan arrival order:
Object(size 2), String "a" (size 1), Primitive "1", String "b" (size 1),
Array(size 2), Primitive "true", Primitive "null", with the spans and parent
links recorded here. -/
theorem scenario1_token_table :
    jsmne_parseFull js_scenario1 =
      COut.ret 7 { pos := 23, toknext := 7, toksuper := -1 }
        [{ type := .JSON_OBJECT, start := 0, end_ := 23, size := 2, parent := -1 },
         { type := .JSON_STRING, start := 2, end_ := 3, size := 1, parent := 0 },
         { type := .JSON_PRIMITIVE, start := 5, end_ := 6, size := 0, parent := 1 },
         { type := .JSON_STRING, start := 8, end_ := 9, size := 1, parent := 0 },
         { type := .JSON_ARRAY, start := 11, end_ := 22, size := 2, parent := 3 },
         { type := .JSON_PRIMITIVE, start := 12, end_ := 16, size := 0, parent := 4 },
         { type := .JSON_PRIMITIVE, start := 17, end_ := 21, size := 0, parent := 4 }] := by
  decide

/-- Claim C5 (code_bug evidence): on the well-formed JSON text "5" (a bare
top-level primitive) the tokenizer evaluates tokens[toksuper] with
toksuper = -1 — an out-of-bounds read of the token table, modelled as the
undefined-behaviour outcome — instead of parsing successfully with the
claimed invariants. -/
theorem toplevel_primitive_reads_out_of_bounds :
    jsmne_parseFull ['5'] = COut.ub := by
  decide

/-- Claim C3, counterexample: on the input "{}]" the closing bracket finds no
still-open container (the walk ends at the parentless closed root token) and
the scan does not fail: parse succeeds with return value 1 rather than the
invalid-character error the claim states. -/
theorem close_without_open_container_accepted :
    jsmne_parseFull ['\x7b', '\x7d', ']'] =
      COut.ret 1 { pos := 3, toknext := 1, toksuper := -1 }
        [{ type := .JSON_OBJECT, start := 0, end_ := 2, size := 0, parent := -1 }] ∧
    (1 : Int) ≠ JSON_ERROR_INVAL := by
  decide

/-- Claim C6, counterexample: the input consisting of a quote, a backslash and
the letter q contains an unterminated string (no closing quote before end of
input), yet parse returns the invalid-character error — the invalid escape
wins over the partial-input classification. -/
theorem unterminated_string_with_bad_escape_inval :
    jsmne_parseFull ['"', '\\', 'q'] = COut.ret JSON_ERROR_INVAL jsmne_init [] ∧
    JSON_ERROR_INVAL ≠ JSON_ERROR_PART := by
  decide

/-- Claim C7, counterexample: in pretty mode, calling the array-only add
function addStringToArray on a handle whose top frame is an Object does latch
Wrong-container-for-array-write, but the output buffer is not left unchanged:
_jwArr falls through to jwPretty, which emits a newline and one indent unit
before the error suppresses the value. -/
theorem array_write_into_object_pretty_mutates_buffer :
    u_obj_pretty.error = JSON_ERROR_OK ∧
    (u_obj_pretty.nodeStack.getD u_obj_pretty.stackpos default).nodeType = djson_type_e.JSON_OBJECT ∧
    (addStringToArray u_obj_pretty ['z']).error = JSON_ERROR_NOT_ARRAY ∧
    (addStringToArray u_obj_pretty ['z']).buffer ≠ u_obj_pretty.buffer := by
  decide

/-- Claim C8, counterexample: after parsing the empty input the token table
length is 0 and the cursor sits at position 0, which does not lie in [0, 0);
yet hasCurrentToken (and hasNextToken) return true, because the C computes
counter <= length - 1 in size_t arithmetic and length - 1 wraps to 2^64 - 1. -/
theorem hasCurrentToken_true_on_empty_table :
    startParsingJSON p_empty [] = StartOut.ret JSON_ERROR_OK p_empty ∧
    hasCurrentToken p_empty = true ∧
    hasNextToken p_empty = true ∧
    ¬ p_empty.counter < p_empty.length := by
  decide

/-- Claim C10, counterexample: a close call is an add/open/close attempt, yet
endObject leaves the call counter unchanged (callNo stays 1 after the close
attempt on a fresh handle), so the call counter is not incremented on each
add/open/close attempt as the claim states. -/
theorem endObject_does_not_increment_callNo :
    u_arr_compact.callNo = 1 ∧
    (endObject u_arr_compact).1.callNo = 1 ∧
    getError (endObject u_arr_compact).1 = 1 := by
  decide

/-- Claim C7, amended: for every serializer state with an Object frame on top
of the stack and no latched error, calling the array-only addStringToArray in
compact mode latches Wrong-container-for-array-write, increments the call
counter, and leaves everything else — in particular the output buffer —
unchanged from before the call.  (In pretty mode the buffer additionally
receives a newline and indentation, see the counterexample.) -/
theorem array_write_into_object_compact (u : unparser_s) (value : List Char)
    (herr : u.error = JSON_ERROR_OK)
    (htop : (u.nodeStack.getD u.stackpos default).nodeType = djson_type_e.JSON_OBJECT)
    (hpretty : u.isPretty = false) :
    addStringToArray u value = { u with callNo := u.callNo + 1, error := JSON_ERROR_NOT_ARRAY } := by
  unfold addStringToArray _jwArr
  simp only [herr, htop, if_true, reduceIte]
  rw [jwPretty_compact _ (by simpa using hpretty)]
  simp [JSON_ERROR_NOT_ARRAY, JSON_ERROR_OK]

theorem array_write_into_object_compact_witness :
    u_obj_compact.error = JSON_ERROR_OK ∧
    (u_obj_compact.nodeStack.getD u_obj_compact.stackpos default).nodeType = djson_type_e.JSON_OBJECT ∧
    u_obj_compact.isPretty = false ∧
    addStringToArray u_obj_compact ['z'] =
      { u_obj_compact with callNo := u_obj_compact.callNo + 1, error := JSON_ERROR_NOT_ARRAY } :=
  ⟨by decide, by decide, by decide,
    array_write_into_object_compact u_obj_compact ['z'] (by decide) (by decide) (by decide)⟩

/-- Claim C2, amended: startParsingJSON propagates only the Out-of-memory
failure of the tokenizer scan; when the scan fails with Invalid-character or
Partial-input the function falls through, stores the negative code into the
size_t length field (wrapped modulo 2^64), and returns JSON_ERROR_OK to the
caller. -/
theorem startParsingJSON_error_propagation (js : List Char) (old : parser_s) (r : Int)
    (p : jsmne_parser_s) (tokens : List token_s)
    (h : jsmne_parseFull js = COut.ret r p tokens) :
    (r = JSON_ERROR_INVAL ∨ r = JSON_ERROR_PART →
      startParsingJSON old js = StartOut.ret JSON_ERROR_OK
        { old with counter := 0, length := sizeTofInt r, json := js, tokens := tokens }) ∧
    (r = JSON_ERROR_NOMEM →
      startParsingJSON old js = StartOut.ret JSON_ERROR_NOMEM { old with tokens := tokens }) := by
  constructor
  · intro hr
    have hne : r ≠ JSON_ERROR_NOMEM := by rcases hr with hr | hr <;> subst hr <;> decide
    unfold startParsingJSON
    rw [h]
    simp [hne]
  · intro hr
    unfold startParsingJSON
    rw [h]
    subst hr
    simp

theorem startParsingJSON_error_propagation_witness :
    jsmne_parseFull ['@'] = COut.ret JSON_ERROR_INVAL jsmne_init [] ∧
    startParsingJSON p_empty ['@'] = StartOut.ret JSON_ERROR_OK
      { p_empty with counter := 0, length := sizeTofInt JSON_ERROR_INVAL, json := ['@'], tokens := [] } :=
  ⟨by decide,
    (startParsingJSON_error_propagation ['@'] p_empty JSON_ERROR_INVAL jsmne_init [] (by decide)).1
      (Or.inl rfl)⟩

/-- Claim C2, counterexample: on the input "@" the tokenizer scan fails with
the Invalid-character code, yet startParsingJSON returns JSON_ERROR_OK to the
caller instead of that failure code. -/
theorem startParsingJSON_returns_ok_on_inval :
    jsmne_parseFull ['@'] = COut.ret JSON_ERROR_INVAL jsmne_init [] ∧
    (match startParsingJSON p_empty ['@'] with
     | StartOut.ret r _ => r
     | _ => -99) = JSON_ERROR_OK ∧
    JSON_ERROR_OK ≠ JSON_ERROR_INVAL := by
  decide

/-- Claim C8, amended: for every parser handle state with a non-empty token
table (1 ≤ length < 2^64) and a cursor that has not run past the table
(counter ≤ length), the cursor queries hasBeforeToken / hasCurrentToken /
hasNextToken return true exactly when the corresponding position lies in
[0, length), and each kind query returns the token kind at its position when
in bounds and the sentinel -1 — distinct from every real kind value —
otherwise.  (With length = 0 the size_t computation length - 1 wraps and the
characterisation fails, see the counterexample.) -/
theorem cursor_bounds_characterization (p : parser_s)
    (h1 : 1 ≤ p.length) (h2 : p.length < SIZE_T_MOD) (h3 : p.counter ≤ p.length) :
    (hasBeforeToken p = true ↔ 1 ≤ p.counter ∧ p.counter - 1 < p.length) ∧
    (hasCurrentToken p = true ↔ p.counter < p.length) ∧
    (hasNextToken p = true ↔ p.counter + 1 < p.length) ∧
    (currentTokenType p =
      if p.counter < p.length then typeInt (p.tokens.getD p.counter default).type else -1) ∧
    (beforeTokenType p =
      if 1 ≤ p.counter then typeInt (p.tokens.getD (p.counter - 1) default).type else -1) ∧
    (nextTokenType p =
      if p.counter + 1 < p.length then typeInt (p.tokens.getD (p.counter + 1) default).type else -1) ∧
    typeInt djson_type_e.JSON_PRIMITIVE ≠ -1 ∧ typeInt djson_type_e.JSON_OBJECT ≠ -1 ∧
    typeInt djson_type_e.JSON_ARRAY ≠ -1 ∧ typeInt djson_type_e.JSON_STRING ≠ -1 := by
  have hpred : sizeTpred p.length = p.length - 1 := sizeTpred_eq p.length h1 h2
  refine ⟨?_, ?_, ?_, ?_, ?_, ?_, by decide, by decide, by decide, by decide⟩
  · simp only [hasBeforeToken, decide_eq_true_eq]
    omega
  · simp only [hasCurrentToken, hpred, decide_eq_true_eq]
    omega
  · simp only [hasNextToken, hpred, decide_eq_true_eq]
    omega
  · unfold currentTokenType
    rw [hpred]
    exact if_congr (by omega) rfl rfl
  · unfold beforeTokenType
    exact if_congr (by omega) rfl rfl
  · unfold nextTokenType
    rw [hpred]
    exact if_congr (by omega) rfl rfl

theorem cursor_bounds_characterization_witness :
    (1 ≤ (1 : Nat) ∧ (1 : Nat) < SIZE_T_MOD ∧ (0 : Nat) ≤ 1) ∧
    (hasCurrentToken { json := [], counter := 0, length := 1, tokens := [default] } = true ↔
      ({ json := [], counter := 0, length := 1, tokens := [default] } : parser_s).counter <
        ({ json := [], counter := 0, length := 1, tokens := [default] } : parser_s).length) :=
  ⟨⟨by decide, by decide, by decide⟩,
    (cursor_bounds_characterization { json := [], counter := 0, length := 1, tokens := [default] }
      (by decide) (by decide) (by decide)).2.1⟩

theorem _jwObj_callNo_ok (u : unparser_s) (key : List Char) (h : u.error = JSON_ERROR_OK) :
    ((_jwObj u key).1).callNo = u.callNo + 1 := by
  unfold _jwObj
  rw [if_pos h]
  simp only [jwPutch_callNo, jwPutstr_callNo, jwPretty_callNo]
  split_ifs <;> simp [jwPutch_callNo, jwPutstr_callNo, jwPretty_callNo]

theorem _jwArr_callNo_ok (u : unparser_s) (h : u.error = JSON_ERROR_OK) :
    ((_jwArr u).1).callNo = u.callNo + 1 := by
  unfold _jwArr
  rw [if_pos h]
  simp only [jwPretty_callNo]
  split_ifs <;> simp [jwPutch_callNo, jwPretty_callNo]

theorem _jwObj_err (u : unparser_s) (key : List Char) (h : ¬ u.error = JSON_ERROR_OK) :
    _jwObj u key = (u, u.error) := by
  unfold _jwObj
  rw [if_neg h]

theorem _jwArr_err (u : unparser_s) (h : ¬ u.error = JSON_ERROR_OK) :
    _jwArr u = (u, u.error) := by
  unfold _jwArr
  rw [if_neg h]

/-- Claim C10, amended: getError returns the handle's call counter callNo, not
the latched error code; callNo is incremented on each add/open attempt made
while no error is latched and is left unchanged by attempts after an error is
latched and by the close/end calls; the latched error code is observable
through the return values of the close/end calls, which return exactly the
handle's error field. -/
theorem getError_returns_callNo (u : unparser_s) (key value : List Char) :
    getError u = u.callNo ∧
    (u.error = JSON_ERROR_OK →
      (addStringToObject u key value).callNo = u.callNo + 1 ∧
      (addStringToArray u value).callNo = u.callNo + 1) ∧
    (¬ u.error = JSON_ERROR_OK →
      addStringToObject u key value = u ∧ addStringToArray u value = u) ∧
    (endObject u).1.callNo = u.callNo ∧
    (endJSON u).1.callNo = u.callNo ∧
    (endObject u).2 = (endObject u).1.error ∧
    (endJSON u).2 = (endJSON u).1.error := by
  refine ⟨rfl, ?_, ?_, ?_, ?_, ?_, ?_⟩
  · intro h
    constructor
    · unfold addStringToObject
      split
      · rw [jwPutstr_callNo, _jwObj_callNo_ok u key h]
      · rw [_jwObj_callNo_ok u key h]
    · unfold addStringToArray
      split
      · rw [jwPutstr_callNo, _jwArr_callNo_ok u h]
      · rw [_jwArr_callNo_ok u h]
  · intro h
    constructor
    · unfold addStringToObject
      rw [_jwObj_err u key h]
      simp [h]
    · unfold addStringToArray
      rw [_jwArr_err u h]
      simp [h]
  · unfold endObject
    split
    · simp only [jwPutch_callNo, jwPretty_callNo]
      split_ifs <;> simp [jwPutch_callNo, jwPretty_callNo, jwPop_snd_callNo]
    · rfl
  · unfold endJSON
    split
    · split
      · simp only [jwPutch_callNo]
        split_ifs <;> simp [jwPutch_callNo]
      · rfl
    · rfl
  · unfold endObject
    split <;> rfl
  · unfold endJSON
    split
    · split <;> rfl
    · rfl

theorem getError_returns_callNo_witness :
    u_obj_compact.error = JSON_ERROR_OK ∧
    getError u_obj_compact = u_obj_compact.callNo ∧
    (addStringToObject u_obj_compact ['a'] ['b']).callNo = u_obj_compact.callNo + 1 ∧
    (endObject u_obj_compact).2 = (endObject u_obj_compact).1.error :=
  ⟨by decide, (getError_returns_callNo u_obj_compact ['a'] ['b']).1,
    ((getError_returns_callNo u_obj_compact ['a'] ['b']).2.1 (by decide)).1,
    (getError_returns_callNo u_obj_compact ['a'] ['b']).2.2.2.2.2.1⟩

/-- Claim C9: endObject and endArray are extensionally equal as state
transformers — their C bodies are identical — and (when no error is latched;
stated here in compact mode with room in the buffer) both pop whatever frame
is on top of the stack and emit the closing character determined by the
popped frame's actual kind, regardless of which of the two was called. -/
theorem endObject_endArray_equiv (u : unparser_s) :
    endObject u = endArray u ∧
    (u.error = JSON_ERROR_OK → u.isPretty = false → u.buffer.length < JSON_JSON_SIZE →
      (endObject u).1.buffer = u.buffer ++
        [if (u.nodeStack.getD u.stackpos default).nodeType = djson_type_e.JSON_OBJECT
         then '\x7d' else ']']) := by
  constructor
  · rfl
  · intro herr hpretty hlen
    unfold endObject
    rw [if_pos herr]
    have hpp : ((jwPop u).2).isPretty = false := by rw [jwPop_snd_isPretty]; exact hpretty
    have hbb : ((jwPop u).2).buffer = u.buffer := jwPop_snd_buffer u
    have key : ∀ (v : unparser_s) (c : Char), v.buffer = u.buffer → v.isPretty = false →
        (jwPutch (if 0 < (u.nodeStack.getD u.stackpos default).elementNo then jwPretty v else v)
          c).buffer = u.buffer ++ [c] := by
      intro v c hb hp
      have h2 : (if 0 < (u.nodeStack.getD u.stackpos default).elementNo then jwPretty v else v) = v := by
        split
        · exact jwPretty_compact v hp
        · rfl
      rw [h2]
      unfold jwPutch
      rw [if_neg (by rw [hb]; omega)]
      simp [hb]
    simp only [jwPop_fst]
    exact key _ _ hbb hpp

theorem endObject_endArray_equiv_witness :
    (u_obj_compact.error = JSON_ERROR_OK ∧ u_obj_compact.isPretty = false ∧
      u_obj_compact.buffer.length < JSON_JSON_SIZE) ∧
    endObject u_obj_compact = endArray u_obj_compact ∧
    (endObject u_obj_compact).1.buffer = u_obj_compact.buffer ++
      [if (u_obj_compact.nodeStack.getD u_obj_compact.stackpos default).nodeType =
          djson_type_e.JSON_OBJECT then '\x7d' else ']'] :=
  ⟨⟨by decide, by decide, by decide⟩, (endObject_endArray_equiv u_obj_compact).1,
    (endObject_endArray_equiv u_obj_compact).2 (by decide) (by decide) (by decide)⟩

theorem string_loop_part (s : List Char) (hs : ∀ c ∈ s, c ≠ '"' ∧ c ≠ '\\') :
    ∀ (fuel pos : Nat) (p : jsmne_parser_s) (tokens : List token_s) (start num : Nat),
      1 ≤ pos → s.length + 2 ≤ pos + fuel → 1 ≤ fuel →
      jsmne_string_loop ('"' :: s) (s.length + 1) num p tokens start pos fuel =
        COut.ret JSON_ERROR_PART { p with pos := start } tokens := by
  intro fuel
  induction fuel with
  | zero =>
    intro pos p tokens start num h1 h2 h3
    exfalso
    omega
  | succ f ih =>
    intro pos p tokens start num h1 h2 h3
    rw [jsmne_string_loop]
    by_cases hlt : pos < s.length + 1
    · have hgd : ('"' :: s).getD pos charNUL = s.getD (pos - 1) charNUL := by
        obtain ⟨n, rfl⟩ : ∃ n, pos = n + 1 := ⟨pos - 1, by omega⟩
        simp [List.getD_cons_succ]
      by_cases hnul : ('"' :: s).getD pos charNUL = charNUL
      · rw [if_neg (fun hc => hc.2 hnul)]
      · rw [if_pos ⟨hlt, hnul⟩]
        have hmem : s.getD (pos - 1) charNUL ∈ s := by
          have hb : pos - 1 < s.length := by omega
          rw [List.getD_eq_getElem s charNUL hb]
          exact List.getElem_mem hb
        obtain ⟨hq, hbs⟩ := hs _ hmem
        rw [if_neg (by rw [hgd]; exact hq)]
        rw [if_neg (fun hc => hbs (by rw [← hgd]; exact hc.1))]
        exact ih (pos + 1) p tokens start num (by omega) (by omega) (by omega)
    · rw [if_neg (fun hc => hlt hc.1)]

/-- Claim C6, amended: for every input text that is an opening quote followed
by characters among which no quote and no backslash occurs — an unterminated
string with no escape sequences — parse returns the Partial-input error, not
the Invalid-character error.  (An invalid escape sequence inside an
unterminated string returns Invalid-character instead, see the
counterexample.) -/
theorem unterminated_string_returns_part (s : List Char)
    (hs : ∀ c ∈ s, c ≠ '"' ∧ c ≠ '\\') :
    jsmne_parseFull ('"' :: s) = COut.ret JSON_ERROR_PART jsmne_init [] := by
  have hstr : jsmne_parse_string jsmne_init ('"' :: s) (('"' :: s).length) [] JSON_TOKEN_SIZE =
      COut.ret JSON_ERROR_PART jsmne_init [] := by
    unfold jsmne_parse_string
    have h := string_loop_part s hs (('"' :: s).length + 1) 1 jsmne_init [] 0 JSON_TOKEN_SIZE
      (by omega) (by simp only [List.length_cons]; omega) (by omega)
    simp only [List.length_cons] at h ⊢
    exact h
  unfold jsmne_parseFull jsmne_parse
  rw [jsmne_parse_loop]
  have hc0 : ('"' :: s).getD jsmne_init.pos charNUL = '"' := rfl
  have hcond : jsmne_init.pos < ('"' :: s).length ∧
      ('"' :: s).getD jsmne_init.pos charNUL ≠ charNUL :=
    ⟨by simp [jsmne_init], by rw [hc0]; decide⟩
  rw [if_pos hcond]
  have hn1 : ¬ (('"' :: s).getD jsmne_init.pos charNUL = '\x7b' ∨
      ('"' :: s).getD jsmne_init.pos charNUL = '[') := by rw [hc0]; decide
  rw [if_neg hn1]
  have hn2 : ¬ (('"' :: s).getD jsmne_init.pos charNUL = '\x7d' ∨
      ('"' :: s).getD jsmne_init.pos charNUL = ']') := by rw [hc0]; decide
  rw [if_neg hn2]
  rw [if_pos hc0]
  rw [hstr]
  rfl

theorem unterminated_string_returns_part_witness :
    (∀ c ∈ ['a', 'b'], c ≠ '"' ∧ c ≠ '\\') ∧
    jsmne_parseFull ('"' :: ['a', 'b']) = COut.ret JSON_ERROR_PART jsmne_init [] :=
  ⟨by decide, unterminated_string_returns_part ['a', 'b'] (by decide)⟩

theorem tokGet_some (tokens : List token_s) (i : Int) (t : token_s)
    (h : tokGet tokens i = some t) :
    0 ≤ i ∧ i.toNat < tokens.length ∧ tokens.getD i.toNat default = t := by
  unfold tokGet at h
  split at h
  · rename_i hi
    have hlen : i.toNat < tokens.length := by
      by_contra hc
      rw [List.get?_eq_none.mpr (by omega)] at h
      exact Option.noConfusion h
    refine ⟨hi, hlen, ?_⟩
    rw [List.getD_eq_getElem tokens default hlen]
    rw [List.get?_eq_get hlen] at h
    exact Option.some.inj h
  · exact Option.noConfusion h

/-- Claim C3, amended: for every token table and closer, the walk the
tokenizer runs on '}' or ']' searches backward through parent links for the
nearest still-open container: if the chain reaches an open token whose kind
differs from the closer the scan fails with the invalid-character error; if
the kinds match its end is set and the current superior becomes that token's
parent; but if the chain contains no open token at all the closer is silently
ignored (table and superior unchanged) — only a closer arriving before any
token has been allocated fails with invalid-character (that guard is in
jsmne_parse_loop itself). -/
theorem close_walk_characterization (tokens : List token_s) (i : Int) (r : Option Int)
    (type : djson_type_e) (pos : Nat) (hchain : ChainFirstOpen tokens i r)
    (hpb : ParentsBack tokens) :
    ∀ fuel : Nat, i < (fuel : Int) →
      ((∀ j t, r = some j → tokGet tokens j = some t →
          ((t.type ≠ type → jsmne_close_walk tokens i type pos fuel = CloseOut.inval) ∧
           (t.type = type → jsmne_close_walk tokens i type pos fuel =
              CloseOut.done (tokSet tokens j { t with end_ := (pos : Int) + 1 }) (some t.parent)))) ∧
       (r = none → jsmne_close_walk tokens i type pos fuel = CloseOut.done tokens none)) := by
  induction hchain with
  | found i t hget hopen =>
    intro fuel hfuel
    have hi0 : 0 ≤ i := (tokGet_some tokens i t hget).1
    obtain ⟨f, rfl⟩ : ∃ f, fuel = f + 1 := by
      cases fuel
      · exfalso; omega
      · exact ⟨_, rfl⟩
    constructor
    · intro j t' hj hget'
      have hj' : j = i := by injection hj with h; exact h.symm
      subst hj'
      have ht : t' = t := by rw [hget] at hget'; exact (Option.some.inj hget').symm
      subst ht
      constructor
      · intro hne
        rw [jsmne_close_walk, hget]
        simp only []
        rw [if_pos (show t'.start ≠ -1 ∧ t'.end_ = -1 from hopen), if_pos hne]
      · intro heq
        rw [jsmne_close_walk, hget]
        simp only []
        rw [if_pos (show t'.start ≠ -1 ∧ t'.end_ = -1 from hopen),
          if_neg (show ¬ t'.type ≠ type by simp [heq])]
    · intro hnone
      exact Option.noConfusion hnone
  | stop i t hget hnot hpar =>
    intro fuel hfuel
    have hi0 : 0 ≤ i := (tokGet_some tokens i t hget).1
    obtain ⟨f, rfl⟩ : ∃ f, fuel = f + 1 := by
      cases fuel
      · exfalso; omega
      · exact ⟨_, rfl⟩
    refine ⟨fun j t' hj _ => Option.noConfusion hj, fun _ => ?_⟩
    rw [jsmne_close_walk, hget]
    simp only []
    rw [if_neg (show ¬ (t.start ≠ -1 ∧ t.end_ = -1) from hnot), if_pos hpar]
  | step i t r hget hnot hpar hrec ih =>
    intro fuel hfuel
    obtain ⟨hi0, hilen, hgd⟩ := tokGet_some tokens i t hget
    obtain ⟨f, rfl⟩ : ∃ f, fuel = f + 1 := by
      cases fuel
      · exfalso; omega
      · exact ⟨_, rfl⟩
    have hparlt : t.parent < i := by
      have h1 := hpb i.toNat hilen
      rw [hgd] at h1
      have h2 : ((i.toNat : Nat) : Int) = i := Int.toNat_of_nonneg hi0
      omega
    have hstep : jsmne_close_walk tokens i type pos (f + 1) =
        jsmne_close_walk tokens t.parent type pos f := by
      rw [jsmne_close_walk, hget]
      simp only []
      rw [if_neg (show ¬ (t.start ≠ -1 ∧ t.end_ = -1) from hnot), if_neg hpar]
    have hih := ih f (by push_cast at hfuel ⊢; omega)
    simp only [hstep]
    exact hih

theorem close_walk_characterization_witness :
    ParentsBack [{ type := djson_type_e.JSON_OBJECT, start := 0, end_ := -1, size := 0, parent := -1 }] ∧
    (0 : Int) < ((1 : Nat) : Int) ∧
    jsmne_close_walk
      [{ type := djson_type_e.JSON_OBJECT, start := 0, end_ := -1, size := 0, parent := -1 }]
      0 djson_type_e.JSON_OBJECT 1 1 =
      CloseOut.done
        (tokSet [{ type := djson_type_e.JSON_OBJECT, start := 0, end_ := -1, size := 0, parent := -1 }]
          0 { type := djson_type_e.JSON_OBJECT, start := 0, end_ := ((1 : Nat) : Int) + 1, size := 0,
              parent := -1 })
        (some (-1)) :=
  ⟨by decide, by decide,
    ((close_walk_characterization
        [{ type := djson_type_e.JSON_OBJECT, start := 0, end_ := -1, size := 0, parent := -1 }]
        0 (some 0) djson_type_e.JSON_OBJECT 1
        (ChainFirstOpen.found 0
          { type := djson_type_e.JSON_OBJECT, start := 0, end_ := -1, size := 0, parent := -1 }
          (by decide) (by decide))
        (by decide) 1 (by decide)).1 0
      { type := djson_type_e.JSON_OBJECT, start := 0, end_ := -1, size := 0, parent := -1 }
      rfl (by decide)).2 rfl⟩
